import Mathlib

/-!
Verification of the real-time conversational audio relay in
`live-backend/main.py` (WebSocketAudioInterface, ConversationManager and the
`/ws/conversation` WebSocket loop) against its natural-language specification.

The Python code is shallowly embedded: the registry dict becomes an
association list with unique keys, byte strings become `List Nat`, and the
external-engine calls (`Conversation.start_session`, `end_session`, the input
callback) are modelled by boolean oracles saying whether the call raises;
every operation returns an explicit outcome record recording the new state,
the messages sent, how often each engine entry point was entered, and whether
an exception escaped to the caller.
-/

set_option autoImplicit false

namespace Relay

/-- A raw audio frame: the sequence of byte values of a Python `bytes`. -/
abbrev Frame := List Nat

/-! ### Python dict operations

`ConversationManager.conversations` is a Python `dict` keyed by session id.
Dict keys are unique, so an association list with unique keys models it; the
claims never depend on iteration order. -/

/-- `d.get(k)` / `k in d`: first (and only) binding of `k`. -/
def dictLookup {α : Type} (m : List (String × α)) (k : String) : Option α :=
  match m with
  | [] => none
  | (k2, v) :: rest => if k2 = k then some v else dictLookup rest k

/-- `d[k] = v`: replace the binding in place when the key exists, else append. -/
def dictInsert {α : Type} (m : List (String × α)) (k : String) (v : α) :
    List (String × α) :=
  match m with
  | [] => [(k, v)]
  | (k2, v2) :: rest =>
    if k2 = k then (k, v) :: rest else (k2, v2) :: dictInsert rest k v

/-- `del d[k]`: drop the binding of `k` (keys are unique in a dict). -/
def dictErase {α : Type} (m : List (String × α)) (k : String) :
    List (String × α) :=
  m.filter (fun p => p.1 != k)

/-! ### Timestamps and session-identifier generation

`create_conversation` builds the id by joining the literal session marker,
the creation instant rendered with the strftime pattern %Y%m%d_%H%M%S, and
the CPython object id of the websocket, separated by underscores.
A Python `datetime` carries microseconds, but `%S` renders only whole
seconds, so the identifier depends on the creation instant only through its
second-granularity truncation. -/

/-- A Python `datetime.datetime` value (fields as in CPython). -/
structure PyDateTime where
  year : Nat
  month : Nat
  day : Nat
  hour : Nat
  minute : Nat
  second : Nat
  microsecond : Nat
deriving DecidableEq, Repr

/-- The range constraints the CPython `datetime` constructor enforces. -/
def PyDateTime.valid (t : PyDateTime) : Prop :=
  1 ≤ t.year ∧ t.year ≤ 9999 ∧ 1 ≤ t.month ∧ t.month ≤ 12 ∧
  1 ≤ t.day ∧ t.day ≤ 31 ∧ t.hour ≤ 23 ∧ t.minute ≤ 59 ∧
  t.second ≤ 59 ∧ t.microsecond ≤ 999999

instance (t : PyDateTime) : Decidable t.valid := by
  unfold PyDateTime.valid; infer_instance

/-- Zero-padded two-digit decimal rendering (as `%m`, `%d`, `%H`, `%M`, `%S`). -/
def pad2 (n : Nat) : List Char :=
  [Nat.digitChar (n / 10), Nat.digitChar (n % 10)]

/-- Zero-padded four-digit decimal rendering (as `%Y`). -/
def pad4 (n : Nat) : List Char :=
  [Nat.digitChar (n / 1000), Nat.digitChar (n / 100 % 10),
   Nat.digitChar (n / 10 % 10), Nat.digitChar (n % 10)]

/-- Unpadded decimal rendering, with structural fuel so the kernel can
evaluate it; `fuel > n` always suffices. -/
def natToDecAux : Nat → Nat → List Char
  | 0, _ => []
  | fuel + 1, n =>
    if n < 10 then [Nat.digitChar n]
    else natToDecAux fuel (n / 10) ++ [Nat.digitChar (n % 10)]

/-- `str(n)` for a nonnegative Python int (e.g. `id(websocket)`). -/
def natToDecList (n : Nat) : List Char := natToDecAux (n + 1) n

/-- The strftime rendering with pattern %Y%m%d_%H%M%S. -/
def strftime_Ymd_HMS (t : PyDateTime) : String :=
  String.mk (pad4 t.year ++ pad2 t.month ++ pad2 t.day ++ [Char.ofNat 95] ++
    pad2 t.hour ++ pad2 t.minute ++ pad2 t.second)

/-- The session identifier generated at creation time: the literal marker,
the second-granularity timestamp and the websocket object id, joined by
underscores as the f-string in `create_conversation` does. -/
def make_session_id (now : PyDateTime) (websocket_id : Nat) : String :=
  "session_" ++ strftime_Ymd_HMS now ++ "_" ++ String.mk (natToDecList websocket_id)

/-! ### WebSocketAudioInterface state -/

/-- Mutable state of one `WebSocketAudioInterface`.  The input callback and
the owning event loop are opaque Python objects, modelled by identities. -/
structure AudioInterfaceState where
  is_recording : Bool
  /-- Frames held in `self.audio_queue`, oldest first. -/
  audio_queue : List Frame
  /-- `self.input_callback` (`None` until `start` registers one). -/
  input_callback : Option Nat
  /-- `self.loop`, captured in `__init__` (or `None` on `RuntimeError`). -/
  loop : Option Nat
deriving DecidableEq, Repr

/-- The interface as `__init__` leaves it, given the loop capture outcome. -/
def AudioInterfaceState.init (loop0 : Option Nat) : AudioInterfaceState :=
  { is_recording := false, audio_queue := [], input_callback := none, loop := loop0 }

/-- What one call to `queue_audio` did. -/
structure QueueAudioOutcome where
  audio_interface : AudioInterfaceState
  /-- Frames handed to `self.input_callback`, in order, by this call. -/
  callback_calls : List Frame
  /-- Whether the call raised to its caller. -/
  raised : Bool
deriving DecidableEq, Repr

/-- `WebSocketAudioInterface.queue_audio(audio_data)`.  The frame is put on
the queue unconditionally; then, if a callback is registered and recording is
on, the callback is invoked once with the frame, any exception it raises
being caught and logged (`callback_raises` is the oracle for that). -/
def queue_audio (ai : AudioInterfaceState) (audio_data : Frame)
    (callback_raises : Bool) : QueueAudioOutcome :=
  let ai1 := { ai with audio_queue := ai.audio_queue ++ [audio_data] }
  if ai1.input_callback.isSome && ai1.is_recording then
    -- the callback runs exactly once; `except Exception` swallows a raise
    { audio_interface := ai1, callback_calls := [audio_data],
      raised := callback_raises && false }
  else
    { audio_interface := ai1, callback_calls := [], raised := false }

/-! ### ConversationManager -/

/-- Environment configuration (`Config` in the source).  `none` models an
unset environment variable. -/
structure Config where
  ELEVENLABS_API_KEY : Option String
  AGENT_ID : Option String
  OUTPUT_SAMPLE_RATE_HZ : Nat
deriving DecidableEq, Repr

/-- Python truthiness of an optional string (`None` and `""` are falsy). -/
def pyTruthyStr : Option String → Bool
  | none => false
  | some s => s != ""

/-- The per-session record stored in `self.conversations[session_id]`. -/
structure ConvData where
  /-- Identity of the engine `Conversation` handle built at creation. -/
  conversation : Nat
  /-- Identity of the owning WebSocket. -/
  websocket : Nat
  audio_interface : AudioInterfaceState
  user_id : Option String
  created_at : PyDateTime
  is_active : Bool
deriving DecidableEq, Repr

/-- `ConversationManager` state: the session dict plus whether an
`ElevenLabs` client object was built (it is iff the API key was truthy at
construction; it is never reassigned afterwards). -/
structure ConversationManager where
  conversations : List (String × ConvData)
  elevenlabs_client : Bool
deriving DecidableEq, Repr

/-- `ConversationManager.__init__` under configuration `cfg`. -/
def ConversationManager.init (cfg : Config) : ConversationManager :=
  { conversations := [], elevenlabs_client := pyTruthyStr cfg.ELEVENLABS_API_KEY }

/-- Result of `create_conversation`: the returned id, or the
`HTTPException(status, detail)` it raised. -/
inductive CreateResult
  | ok (session_id : String)
  | httpError (status : Nat) (detail : String)
deriving DecidableEq, Repr

/-- `ConversationManager.create_conversation(websocket, user_id)` called at
instant `now` on a websocket with identity `websocket_id`, running on event
loop `loop_id`; `conv_handle` is the identity of the freshly constructed
engine `Conversation` object. -/
def create_conversation (cfg : Config) (mgr : ConversationManager)
    (websocket_id : Nat) (user_id : Option String) (now : PyDateTime)
    (loop_id : Nat) (conv_handle : Nat) :
    CreateResult × ConversationManager :=
  let session_id := make_session_id now websocket_id
  if !mgr.elevenlabs_client || !pyTruthyStr cfg.AGENT_ID then
    (.httpError 500 "ElevenLabs not properly configured", mgr)
  else
    let audio_interface := AudioInterfaceState.init (some loop_id)
    let conv_data : ConvData :=
      { conversation := conv_handle, websocket := websocket_id,
        audio_interface := audio_interface, user_id := user_id,
        created_at := now, is_active := false }
    (.ok session_id,
     { mgr with conversations := dictInsert mgr.conversations session_id conv_data })

/-- What one call to `start_conversation` did. -/
structure StartOutcome where
  mgr : ConversationManager
  /-- `some (status, detail)` when the call raised `HTTPException`. -/
  raised : Option (Nat × String)
  /-- Times the engine entry point `conversation.start_session()` was entered. -/
  engine_start_calls : Nat
deriving DecidableEq, Repr

/-- `ConversationManager.start_conversation(session_id, user_id)`.
`engine_start_raises` is the oracle for `conversation.start_session()`
raising inside the worker thread. -/
def start_conversation (mgr : ConversationManager) (session_id : String)
    (engine_start_raises : Bool) : StartOutcome :=
  match dictLookup mgr.conversations session_id with
  | none =>
    { mgr := mgr, raised := some (404, "Session not found"), engine_start_calls := 0 }
  | some conv_data =>
    if engine_start_raises then
      -- the executor re-raises; the handler wraps it in HTTPException(500)
      { mgr := mgr, raised := some (500, "Failed to start conversation"),
        engine_start_calls := 1 }
    else
      let conv2 := { conv_data with is_active := true }
      let mgr2 := { mgr with conversations := dictInsert mgr.conversations session_id conv2 }
      { mgr := mgr2, raised := none, engine_start_calls := 1 }

/-- What one call to `end_conversation` did. -/
structure EndOutcome where
  mgr : ConversationManager
  /-- Whether the call raised to its caller. -/
  raised : Bool
  /-- Times the engine entry point `conversation.end_session()` was entered. -/
  engine_end_calls : Nat
deriving DecidableEq, Repr

/-- `ConversationManager.end_conversation(session_id)`.  `end_session()`,
the `is_active` reset and the `del` all sit in one `try` whose `except`
only logs: when `end_session` raises (`engine_end_raises`), the deletion is
skipped and the session stays registered. -/
def end_conversation (mgr : ConversationManager) (session_id : String)
    (engine_end_raises : Bool) : EndOutcome :=
  match dictLookup mgr.conversations session_id with
  | none => { mgr := mgr, raised := false, engine_end_calls := 0 }
  | some _ =>
    if engine_end_raises then
      { mgr := mgr, raised := false, engine_end_calls := 1 }
    else
      { mgr := { mgr with conversations := dictErase mgr.conversations session_id },
        raised := false, engine_end_calls := 1 }

/-! ### Outbound audio delivery (`WebSocketAudioInterface.output`) -/

/-- The standard base64 alphabet used by `base64.b64encode`. -/
def base64Alphabet : List Char :=
  "ABCDEFGHIJKLMNOPQRSTUVWXYZabcdefghijklmnopqrstuvwxyz0123456789+/".data

/-- Character for one 6-bit group. -/
def b64char (n : Nat) : Char := base64Alphabet.getD n (Char.ofNat 65)

/-- `base64.b64encode(bytes).decode("ascii")` on a byte list: 3 bytes map to
4 alphabet characters, with `=` padding for a trailing 1- or 2-byte group. -/
def b64encode : List Nat → List Char
  | [] => []
  | [b0] =>
    [b64char (b0 / 4), b64char (b0 % 4 * 16), Char.ofNat 61, Char.ofNat 61]
  | [b0, b1] =>
    [b64char (b0 / 4), b64char (b0 % 4 * 16 + b1 / 16),
     b64char (b1 % 16 * 4), Char.ofNat 61]
  | b0 :: b1 :: b2 :: rest =>
    b64char (b0 / 4) :: b64char (b0 % 4 * 16 + b1 / 16) ::
    b64char (b1 % 16 * 4 + b2 / 64) :: b64char (b2 % 64) :: b64encode rest

/-- The JSON payload `output` builds for one agent-audio frame. -/
structure AudioPayload where
  type : String
  audio_data : String
  encoding : String
  sample_rate_hz : Nat
deriving DecidableEq, Repr

/-- Outcome of `fut.result(timeout=2.0)` on the scheduled send: it returned,
timed out, or raised a send error.  All three are swallowed by `output`. -/
inductive SendWait
  | completed
  | timedOut
  | sendRaised (err : String)
deriving DecidableEq, Repr

/-- What one call to `output` did. -/
structure OutputOutcome where
  audio_interface : AudioInterfaceState
  /-- The payload scheduled on the owning event loop, if scheduling happened. -/
  scheduled : Option AudioPayload
  /-- The timeout (seconds) passed to `fut.result`, when a wait happened. -/
  wait_timeout_s : Option Nat
  /-- Whether the call raised to the calling engine thread. -/
  raised : Bool
deriving DecidableEq, Repr

/-- `WebSocketAudioInterface.output(audio_data)`, called from the engine
worker thread.  `current_loop` models `asyncio.get_event_loop()` there:
`none` means it raises `RuntimeError` (no loop in that thread), which the
outer `except` catches and logs.  When a loop is available, the payload is
scheduled via `run_coroutine_threadsafe` and awaited for at most 2 seconds;
any exception of that wait is swallowed by `except Exception: pass`. -/
def output (ai : AudioInterfaceState) (cfg : Config) (audio_data : Frame)
    (current_loop : Option Nat) (send_wait : SendWait) : OutputOutcome :=
  match (match ai.loop with | some l => some l | none => current_loop) with
  | none =>
    -- `asyncio.get_event_loop()` raised; caught by the outer `except`
    { audio_interface := ai, scheduled := none, wait_timeout_s := none,
      raised := false }
  | some l =>
    let payload : AudioPayload :=
      { type := "audio",
        audio_data := String.mk (b64encode audio_data),
        encoding := "pcm16",
        sample_rate_hz := cfg.OUTPUT_SAMPLE_RATE_HZ }
    -- the inner try swallows whatever `fut.result(timeout=2.0)` raises
    let swallowed := match send_wait with
      | .completed => false
      | .timedOut => false
      | .sendRaised _ => false
    { audio_interface := { ai with loop := some l },
      scheduled := some payload,
      wait_timeout_s := some 2,
      raised := swallowed }

/-! ### The WebSocket control-message handler and receive loop -/

/-- A decoded client control message: `message.get("type")`,
`message.get("user_id")`, `message.get("text")`. -/
structure Msg where
  type : Option String
  user_id : Option String
  text : Option String
deriving DecidableEq, Repr

/-- `str(x)` for an optional string (`str(None)` is `"None"`), as the
f-strings in the handler render `message_type`. -/
def pyStrOfOptStr : Option String → String
  | none => "None"
  | some s => s

/-- `str(e)` for `HTTPException(status, detail)`. -/
def strHTTPException (status : Nat) (detail : String) : String :=
  String.mk (natToDecList status) ++ ": " ++ detail

/-- A server-to-client JSON message. -/
inductive OutMsg
  | session_created (session_id : String) (message : String)
  | conversation_started (message : String)
  | conversation_stopped (message : String)
  | text_response (text : String)
  | audio (payload : AudioPayload)
  | error (message : String)
deriving DecidableEq, Repr

/-- What one call to `handle_websocket_message` did. -/
structure HandleOutcome where
  mgr : ConversationManager
  /-- Messages sent to the client, in order. -/
  sent : List OutMsg
  engine_start_calls : Nat
  engine_end_calls : Nat
  /-- Whether the handler raised to the receive loop. -/
  raised : Bool
deriving DecidableEq, Repr

/-- `handle_websocket_message(session_id, message, websocket)` (sends on the
open transport succeed).  The `start` branch catches every exception of
`start_conversation` and replies `error`; `stop` replies
`conversation_stopped`; `text` echoes; anything else replies `error` naming
the offending type. -/
def handle_websocket_message (mgr : ConversationManager) (session_id : String)
    (message : Msg) (engine_start_raises : Bool) (engine_end_raises : Bool) :
    HandleOutcome :=
  let mt := message.type
  if mt = some "start" then
    let out := start_conversation mgr session_id engine_start_raises
    match out.raised with
    | none =>
      { mgr := out.mgr,
        sent := [.conversation_started "Conversation started! You can now speak."],
        engine_start_calls := out.engine_start_calls, engine_end_calls := 0,
        raised := false }
    | some (status, detail) =>
      { mgr := out.mgr,
        sent := [.error ("Failed to start conversation: " ++ strHTTPException status detail)],
        engine_start_calls := out.engine_start_calls, engine_end_calls := 0,
        raised := false }
  else if mt = some "stop" then
    let out := end_conversation mgr session_id engine_end_raises
    { mgr := out.mgr,
      sent := [.conversation_stopped "Conversation stopped."],
      engine_start_calls := 0, engine_end_calls := out.engine_end_calls,
      raised := false }
  else if mt = some "text" then
    { mgr := mgr,
      sent := [.text_response ("Echo: " ++ message.text.getD "")],
      engine_start_calls := 0, engine_end_calls := 0, raised := false }
  else
    { mgr := mgr,
      sent := [.error ("Unknown message type: " ++ pyStrOfOptStr mt)],
      engine_start_calls := 0, engine_end_calls := 0, raised := false }

instance {ε α : Type} [DecidableEq ε] [DecidableEq α] : DecidableEq (Except ε α) :=
  fun x y =>
  match x, y with
  | .error a, .error b =>
    if h : a = b then .isTrue (by rw [h]) else .isFalse (by simp [h])
  | .error _, .ok _ => .isFalse (by simp)
  | .ok _, .error _ => .isFalse (by simp)
  | .ok a, .ok b =>
    if h : a = b then .isTrue (by rw [h]) else .isFalse (by simp [h])

/-- One frame delivered by `websocket.receive()` to the loop body:
a text frame with its `json.loads` result (`Except.error` when decoding
raises `JSONDecodeError`), a binary frame, a `WebSocketDisconnect`, or
another receive failure. -/
inductive RecvData
  | text (decoded : Except String Msg)
  | bytes (audio_data : Frame)
  | disconnect
  | failure (err : String)
deriving DecidableEq, Repr

/-- Whether the `while True` receive loop runs another iteration after the
current event, and why it exits when it does. -/
inductive LoopControl
  | continueLoop
  | exitDisconnect
  | exitError (err : String)
deriving DecidableEq, Repr

/-- What one loop iteration did. -/
structure StepOutcome where
  mgr : ConversationManager
  sent : List OutMsg
  /-- Frames forwarded to the engine input callback by this iteration. -/
  callback_calls : List Frame
  control : LoopControl
  engine_start_calls : Nat
  engine_end_calls : Nat
deriving DecidableEq, Repr

/-- One iteration of the `while True` loop in `websocket_conversation`,
after `session_created` was sent.  An exception escaping the body (for
example `json.loads` raising on a malformed text frame) is caught by the
`except Exception` around the whole loop, which sends a `Server error`
reply and falls through to the `finally` cleanup — the loop does not run
again.  A binary frame is routed to `queue_audio` only when the session id
is still registered. -/
def websocket_loop_step (mgr : ConversationManager) (session_id : String)
    (data : RecvData) (engine_start_raises : Bool) (engine_end_raises : Bool)
    (callback_raises : Bool) : StepOutcome :=
  match data with
  | .disconnect =>
    { mgr := mgr, sent := [], callback_calls := [], control := .exitDisconnect,
      engine_start_calls := 0, engine_end_calls := 0 }
  | .failure err =>
    { mgr := mgr, sent := [.error ("Server error: " ++ err)],
      callback_calls := [], control := .exitError err,
      engine_start_calls := 0, engine_end_calls := 0 }
  | .text (.error err) =>
    -- json.loads raised; the loop-level handler replies and the loop exits
    { mgr := mgr, sent := [.error ("Server error: " ++ err)],
      callback_calls := [], control := .exitError err,
      engine_start_calls := 0, engine_end_calls := 0 }
  | .text (.ok message) =>
    let h := handle_websocket_message mgr session_id message
      engine_start_raises engine_end_raises
    { mgr := h.mgr, sent := h.sent, callback_calls := [],
      control := .continueLoop,
      engine_start_calls := h.engine_start_calls,
      engine_end_calls := h.engine_end_calls }
  | .bytes audio_data =>
    match dictLookup mgr.conversations session_id with
    | none =>
      { mgr := mgr, sent := [], callback_calls := [], control := .continueLoop,
        engine_start_calls := 0, engine_end_calls := 0 }
    | some conv_data =>
      let q := queue_audio conv_data.audio_interface audio_data callback_raises
      let conv2 := { conv_data with audio_interface := q.audio_interface }
      let mgr2 := { mgr with conversations := dictInsert mgr.conversations session_id conv2 }
      { mgr := mgr2, sent := [], callback_calls := q.callback_calls,
        control := .continueLoop, engine_start_calls := 0, engine_end_calls := 0 }


/-! ### Helper definitions for the proofs and concrete scenarios -/

/-- Inverse of `Nat.digitChar` on decimal digits. -/
def charToDigit (c : Char) : Nat := c.toNat - 48

/-- Reads a digit string back as a number; left inverse of `natToDecList`. -/
def decListToNat (l : List Char) : Nat :=
  l.foldl (fun acc c => acc * 10 + charToDigit c) 0

/-- The character data of `make_session_id`, fully right-associated. -/
def sessionIdChars (t : PyDateTime) (w : Nat) : List Char :=
  "session_".data ++ (pad4 t.year ++ (pad2 t.month ++ (pad2 t.day ++
    ([Char.ofNat 95] ++ (pad2 t.hour ++ (pad2 t.minute ++ (pad2 t.second ++
    ([Char.ofNat 95] ++ natToDecList w))))))))

/-- A creation instant. -/
def sampleDT : PyDateTime := ⟨2025, 10, 12, 13, 5, 9, 0⟩

/-- A later creation instant within the same wall-clock second. -/
def sampleDT2 : PyDateTime := ⟨2025, 10, 12, 13, 5, 9, 999999⟩

/-- An audio interface mid-session: recording, with a registered callback. -/
def sampleAI : AudioInterfaceState :=
  { is_recording := true, audio_queue := [], input_callback := some 3, loop := some 5 }

/-- A registered session record. -/
def sampleConv (active : Bool) : ConvData :=
  { conversation := 1, websocket := 42, audio_interface := sampleAI,
    user_id := none, created_at := sampleDT, is_active := active }

/-- The identifier `create_conversation` generates at `sampleDT` for
websocket identity 42. -/
def sampleSid : String := make_session_id sampleDT 42

/-- A manager holding one ACTIVE session. -/
def sampleMgrActive : ConversationManager :=
  { conversations := [(sampleSid, sampleConv true)], elevenlabs_client := true }

/-- A fully configured environment. -/
def sampleCfg : Config :=
  { ELEVENLABS_API_KEY := some "key", AGENT_ID := some "agent",
    OUTPUT_SAMPLE_RATE_HZ := 24000 }

/-- A manager with one registered session but no client object. -/
def sampleMgrNoClient : ConversationManager :=
  { conversations := [(sampleSid, sampleConv false)], elevenlabs_client := false }

/-- A configuration with the API key unset. -/
def sampleCfgNoKey : Config :=
  { ELEVENLABS_API_KEY := none, AGENT_ID := some "agent",
    OUTPUT_SAMPLE_RATE_HZ := 24000 }

/-! ### Helper lemmas -/

/-- Deleting a key from the dict makes it unfindable. -/
theorem dictLookup_dictErase_self {α : Type} (m : List (String × α)) (k : String) :
    dictLookup (dictErase m k) k = none := by
  induction m with
  | nil => rfl
  | cons p rest ih =>
    obtain ⟨k2, v⟩ := p
    by_cases h : k2 = k
    · simpa [dictErase, List.filter_cons, h] using ih
    · simpa [dictErase, List.filter_cons, h, dictLookup] using ih

/-- `Nat.digitChar` is injective on decimal digits. -/
theorem digitChar_inj_le9 :
    ∀ a, a ≤ 9 → ∀ b, b ≤ 9 → Nat.digitChar a = Nat.digitChar b → a = b := by
  decide

/-- `charToDigit` undoes `Nat.digitChar` on decimal digits. -/
theorem charToDigit_digitChar : ∀ d, d ≤ 9 → charToDigit (Nat.digitChar d) = d := by
  decide

/-- Peeling the last digit off a decimal reading. -/
theorem decListToNat_append_digit (l : List Char) (c : Char) :
    decListToNat (l ++ [c]) = decListToNat l * 10 + charToDigit c := by
  simp [decListToNat, List.foldl_append]

/-- With enough fuel, reading back the rendered digits recovers the number. -/
theorem decListToNat_natToDecAux :
    ∀ fuel n, n < fuel → decListToNat (natToDecAux fuel n) = n := by
  intro fuel
  induction fuel with
  | zero => intro n h; omega
  | succ fuel ih =>
    intro n h
    unfold natToDecAux
    by_cases h10 : n < 10
    · simp only [h10, if_true]
      simp [decListToNat, charToDigit_digitChar n (by omega)]
    · simp only [h10, if_false]
      rw [decListToNat_append_digit, ih (n / 10) (by omega),
        charToDigit_digitChar (n % 10) (by omega)]
      omega

/-- Decimal rendering of naturals is injective. -/
theorem natToDecList_inj {a b : Nat} (h : natToDecList a = natToDecList b) :
    a = b := by
  have ha := decListToNat_natToDecAux (a + 1) a (by omega)
  have hb := decListToNat_natToDecAux (b + 1) b (by omega)
  unfold natToDecList at h
  rw [← ha, ← hb, h]

/-- `pad2` is injective below 100. -/
theorem pad2_inj {a b : Nat} (ha : a ≤ 99) (hb : b ≤ 99) (h : pad2 a = pad2 b) :
    a = b := by
  simp [pad2] at h
  obtain ⟨h1, h2⟩ := h
  have e1 := digitChar_inj_le9 (a / 10) (by omega) (b / 10) (by omega) h1
  have e2 := digitChar_inj_le9 (a % 10) (by omega) (b % 10) (by omega) h2
  omega

/-- `pad4` is injective below 10000. -/
theorem pad4_inj {a b : Nat} (ha : a ≤ 9999) (hb : b ≤ 9999) (h : pad4 a = pad4 b) :
    a = b := by
  simp [pad4] at h
  obtain ⟨h1, h2, h3, h4⟩ := h
  have e1 := digitChar_inj_le9 (a / 1000) (by omega) (b / 1000) (by omega) h1
  have e2 := digitChar_inj_le9 (a / 100 % 10) (by omega) (b / 100 % 10) (by omega) h2
  have e3 := digitChar_inj_le9 (a / 10 % 10) (by omega) (b / 10 % 10) (by omega) h3
  have e4 := digitChar_inj_le9 (a % 10) (by omega) (b % 10) (by omega) h4
  omega

/-- The data of a generated session identifier. -/
theorem make_session_id_data (t : PyDateTime) (w : Nat) :
    (make_session_id t w).data = sessionIdChars t w := by
  simp [make_session_id, sessionIdChars, strftime_Ymd_HMS, String.data_append]

/-- Two generated identifier strings agree only if every rendered component
agrees. -/
theorem sessionIdChars_inj (t1 t2 : PyDateTime) (w1 w2 : Nat)
    (h1 : t1.valid) (h2 : t2.valid)
    (h : sessionIdChars t1 w1 = sessionIdChars t2 w2) :
    t1.year = t2.year ∧ t1.month = t2.month ∧ t1.day = t2.day ∧
    t1.hour = t2.hour ∧ t1.minute = t2.minute ∧ t1.second = t2.second ∧
    w1 = w2 := by
  obtain ⟨_, _, _, _, _, _, _, _, _, _⟩ := h1
  obtain ⟨_, _, _, _, _, _, _, _, _, _⟩ := h2
  unfold sessionIdChars at h
  obtain ⟨-, h⟩ := List.append_inj h rfl
  obtain ⟨hy, h⟩ := List.append_inj h rfl
  obtain ⟨hmo, h⟩ := List.append_inj h rfl
  obtain ⟨hd, h⟩ := List.append_inj h rfl
  obtain ⟨-, h⟩ := List.append_inj h rfl
  obtain ⟨hh, h⟩ := List.append_inj h rfl
  obtain ⟨hmi, h⟩ := List.append_inj h rfl
  obtain ⟨hs, h⟩ := List.append_inj h rfl
  obtain ⟨-, hw⟩ := List.append_inj h rfl
  exact ⟨pad4_inj (by omega) (by omega) hy, pad2_inj (by omega) (by omega) hmo,
    pad2_inj (by omega) (by omega) hd, pad2_inj (by omega) (by omega) hh,
    pad2_inj (by omega) (by omega) hmi, pad2_inj (by omega) (by omega) hs,
    natToDecList_inj hw⟩

/-- `end_conversation` on an absent identifier is a complete no-op. -/
theorem end_conversation_absent (mgr : ConversationManager) (sid : String)
    (eer : Bool) (h : dictLookup mgr.conversations sid = none) :
    end_conversation mgr sid eer =
      { mgr := mgr, raised := false, engine_end_calls := 0 } := by
  unfold end_conversation
  rw [h]

/-! ### Claim theorems -/

/-- C1, counterexample: on a registry holding one session whose `is_active`
flag is set, a further `start_conversation` on that identifier does not fail
with any state error — it succeeds and enters the engine session-start entry
point (`start_session`) once more, contradicting the claim that a double
start fails with InvalidStateError without a second engine start. -/
theorem start_on_active_session_invokes_engine_again :
    dictLookup sampleMgrActive.conversations sampleSid = some (sampleConv true) ∧
    (sampleConv true).is_active = true ∧
    (start_conversation sampleMgrActive sampleSid false).raised = none ∧
    (start_conversation sampleMgrActive sampleSid false).engine_start_calls = 1 := by
  decide

/-- C1, amended: `start_conversation` never consults the activity state.  For
every identifier present in the registry it enters the engine session-start
entry point exactly once per call — a start on an already ACTIVE session
invokes the engine again rather than failing — and the only failure tied to
session state is the 404 for an absent identifier; when the engine start
raises, the failure surfaces as HTTP 500. -/
theorem start_conversation_present_always_invokes_engine
    (mgr : ConversationManager) (sid : String) (esr : Bool) (cd : ConvData)
    (hpres : dictLookup mgr.conversations sid = some cd) :
    (start_conversation mgr sid esr).engine_start_calls = 1 ∧
    (start_conversation mgr sid esr).raised =
      (if esr then some (500, "Failed to start conversation") else none) := by
  unfold start_conversation
  rw [hpres]
  cases esr <;> simp

/-- Witness for `start_conversation_present_always_invokes_engine` at an
ACTIVE registered session. -/
theorem start_conversation_present_always_invokes_engine_witness :
    (start_conversation sampleMgrActive sampleSid false).engine_start_calls = 1 ∧
    (start_conversation sampleMgrActive sampleSid false).raised =
      (if false then some (500, "Failed to start conversation") else none) :=
  start_conversation_present_always_invokes_engine sampleMgrActive sampleSid false
    (sampleConv true) (by decide)

/-- C2, counterexample: a text frame whose JSON decoding fails makes the
iteration exit the receive loop (the loop-level handler replies and control
leaves the loop), contradicting the claim that no single bad message —
including one that fails to decode — ever terminates the loop. -/
theorem undecodable_message_terminates_loop :
    (websocket_loop_step sampleMgrActive sampleSid
      (.text (.error "Expecting value: line 1 column 1 (char 0)"))
      false false false).control =
      .exitError "Expecting value: line 1 column 1 (char 0)" ∧
    (websocket_loop_step sampleMgrActive sampleSid
      (.text (.error "Expecting value: line 1 column 1 (char 0)"))
      false false false).control ≠ .continueLoop := by
  decide

/-- C2, amended: every successfully decoded control message leaves the
receive loop running, and an unrecognized type draws an `error` reply naming
the offending type while the loop continues; only a transport disconnect, an
unrecoverable receive failure, or a text frame whose decoding raises
terminates the loop. -/
theorem decoded_message_never_terminates_loop
    (mgr : ConversationManager) (sid : String) (message : Msg)
    (esr eer cbr : Bool) :
    (websocket_loop_step mgr sid (.text (.ok message)) esr eer cbr).control =
      .continueLoop ∧
    (message.type ≠ some "start" → message.type ≠ some "stop" →
      message.type ≠ some "text" →
      (websocket_loop_step mgr sid (.text (.ok message)) esr eer cbr).sent =
        [.error ("Unknown message type: " ++ pyStrOfOptStr message.type)]) := by
  constructor
  · rfl
  · intro h1 h2 h3
    simp [websocket_loop_step, handle_websocket_message, h1, h2, h3]

/-- Witness for `decoded_message_never_terminates_loop` on an unrecognized
control type. -/
theorem decoded_message_never_terminates_loop_witness :
    (websocket_loop_step sampleMgrActive sampleSid
      (.text (.ok ⟨some "bogus", none, none⟩)) false false false).control =
      .continueLoop ∧
    (websocket_loop_step sampleMgrActive sampleSid
      (.text (.ok ⟨some "bogus", none, none⟩)) false false false).sent =
      [.error ("Unknown message type: " ++ pyStrOfOptStr (some "bogus"))] := by
  have h := decoded_message_never_terminates_loop sampleMgrActive sampleSid
    ⟨some "bogus", none, none⟩ false false false
  exact ⟨h.1, h.2 (by decide) (by decide) (by decide)⟩

/-- C3, counterexample: when the engine-side `end_session` raises,
`end_conversation` returns (the exception is caught) yet the identifier is
still present in the registry — the `del` is skipped — contradicting the
claim that the identifier is removed regardless of the engine outcome. -/
theorem engine_raise_leaves_session_registered :
    (end_conversation sampleMgrActive sampleSid true).raised = false ∧
    dictLookup (end_conversation sampleMgrActive sampleSid true).mgr.conversations
      sampleSid = some (sampleConv true) := by
  decide

/-- C3, amended: after `end_conversation` returns, the identifier is absent
from the registry exactly when the engine-side `end_session` succeeded (or
the identifier was absent already); when `end_session` raises, the exception
is caught and logged but removal is skipped, so the session stays registered
— and the unconditional cleanup in the connection handler, which calls this
same function, then also fails to deregister it. -/
theorem end_conversation_removes_iff_engine_end_succeeds
    (mgr : ConversationManager) (sid : String) (eer : Bool) :
    dictLookup (end_conversation mgr sid eer).mgr.conversations sid =
      (if eer then dictLookup mgr.conversations sid else none) := by
  unfold end_conversation
  cases h : dictLookup mgr.conversations sid
  · cases eer <;> simp [h]
  · cases eer <;> simp [h, dictLookup_dictErase_self]

/-- C4: `queue_audio` appends the frame to the FIFO queue unconditionally;
it is forwarded to the input callback exactly once precisely when a callback
is registered and recording is on (otherwise the callback sees nothing); a
callback exception never propagates to the caller; and the call changes
neither the recording flag nor the registered callback. -/
theorem queue_audio_spec (ai : AudioInterfaceState) (frame : Frame) (cbr : Bool) :
    (queue_audio ai frame cbr).audio_interface.audio_queue =
      ai.audio_queue ++ [frame] ∧
    (queue_audio ai frame cbr).callback_calls =
      (if ai.input_callback.isSome && ai.is_recording then [frame] else []) ∧
    (queue_audio ai frame cbr).raised = false ∧
    (queue_audio ai frame cbr).audio_interface.is_recording = ai.is_recording ∧
    (queue_audio ai frame cbr).audio_interface.input_callback =
      ai.input_callback := by
  by_cases h : ai.input_callback.isSome && ai.is_recording <;>
    simp [queue_audio, h]

/-- C5, counterexample: two distinct successful creation calls — distinct
instants in the same wall-clock second, same websocket identity — return the
same session identifier, contradicting the claim that identifiers are unique
among all identifiers ever returned. -/
theorem session_id_collision_same_second :
    sampleDT ≠ sampleDT2 ∧
    (create_conversation sampleCfg (ConversationManager.init sampleCfg)
      42 none sampleDT 5 1).1 = .ok sampleSid ∧
    (create_conversation sampleCfg
      (create_conversation sampleCfg (ConversationManager.init sampleCfg)
        42 none sampleDT 5 1).2
      42 none sampleDT2 5 2).1 = .ok sampleSid := by
  decide

/-- C5, amended: the generated identifier is determined by the
second-granularity creation timestamp together with the websocket identity —
two creation calls receive equal identifiers exactly when those agree — so
identifiers are unique only across calls differing in truncated timestamp or
connection identity, and collide for two creations within one wall-clock
second on the same websocket identity. -/
theorem session_id_eq_iff_same_second_and_socket
    (t1 t2 : PyDateTime) (w1 w2 : Nat) (h1 : t1.valid) (h2 : t2.valid) :
    make_session_id t1 w1 = make_session_id t2 w2 ↔
      (t1.year = t2.year ∧ t1.month = t2.month ∧ t1.day = t2.day ∧
       t1.hour = t2.hour ∧ t1.minute = t2.minute ∧ t1.second = t2.second ∧
       w1 = w2) := by
  constructor
  · intro h
    rw [String.ext_iff, make_session_id_data, make_session_id_data] at h
    exact sessionIdChars_inj t1 t2 w1 w2 h1 h2 h
  · rintro ⟨hy, hmo, hd, hh, hmi, hs, hw⟩
    rw [String.ext_iff, make_session_id_data, make_session_id_data]
    unfold sessionIdChars pad4 pad2
    rw [hy, hmo, hd, hh, hmi, hs, hw]

/-- Witness for `session_id_eq_iff_same_second_and_socket` at two instants in
the same second. -/
theorem session_id_eq_iff_same_second_and_socket_witness :
    (make_session_id sampleDT 42 = make_session_id sampleDT2 42 ↔
      (sampleDT.year = sampleDT2.year ∧ sampleDT.month = sampleDT2.month ∧
       sampleDT.day = sampleDT2.day ∧ sampleDT.hour = sampleDT2.hour ∧
       sampleDT.minute = sampleDT2.minute ∧ sampleDT.second = sampleDT2.second ∧
       42 = 42)) :=
  session_id_eq_iff_same_second_and_socket sampleDT sampleDT2 42 42
    (by decide) (by decide)

/-- C6: `end_conversation` never raises to its caller, whatever the
engine-side teardown does; and once a first call has removed the identifier,
a second call on the same identifier is a complete no-op (registry unchanged,
engine not called, nothing raised). -/
theorem end_conversation_idempotent_never_raises
    (mgr : ConversationManager) (sid : String) (eer1 eer2 : Bool) :
    (end_conversation mgr sid eer1).raised = false ∧
    end_conversation (end_conversation mgr sid false).mgr sid eer2 =
      { mgr := (end_conversation mgr sid false).mgr, raised := false,
        engine_end_calls := 0 } := by
  constructor
  · unfold end_conversation
    cases h : dictLookup mgr.conversations sid <;> cases eer1 <;> simp
  · have habs :
        dictLookup (end_conversation mgr sid false).mgr.conversations sid = none := by
      unfold end_conversation
      cases h : dictLookup mgr.conversations sid
      · simpa using h
      · simpa using dictLookup_dictErase_self mgr.conversations sid
    exact end_conversation_absent _ sid eer2 habs

/-- C7: `output` never raises into the calling engine thread — for every
wait outcome, including a timeout and a send failure — and whenever an
owning event loop is available it schedules exactly the typed message
(type `audio`, base64 payload, `pcm16`, the configured sample rate) on that
loop and bounds its wait to 2 seconds. -/
theorem output_never_raises_bounded_wait (ai : AudioInterfaceState) (cfg : Config)
    (frame : Frame) (current_loop : Option Nat) (sw : SendWait) :
    (output ai cfg frame current_loop sw).raised = false ∧
    (output ai cfg frame current_loop sw).scheduled =
      (match (match ai.loop with | some l => some l | none => current_loop) with
       | none => none
       | some _ => some { type := "audio",
                          audio_data := String.mk (b64encode frame),
                          encoding := "pcm16",
                          sample_rate_hz := cfg.OUTPUT_SAMPLE_RATE_HZ }) ∧
    (output ai cfg frame current_loop sw).wait_timeout_s =
      (match (match ai.loop with | some l => some l | none => current_loop) with
       | none => none
       | some _ => some 2) := by
  cases hl : ai.loop <;> cases hc : current_loop <;> cases sw <;>
    simp [output, hl, hc]

/-- C8: with the engine API key or the agent identifier absent,
`create_conversation` raises the configuration `HTTPException(500)` and
performs no state change: the manager — including every previously
registered session — is returned exactly as it was.  The hypothesis ties the
client flag to the key, as `ConversationManager.__init__` establishes. -/
theorem create_conversation_config_error_no_state_change (cfg : Config)
    (mgr : ConversationManager) (w : Nat) (u : Option String) (t : PyDateTime)
    (l c : Nat)
    (hclient : mgr.elevenlabs_client = pyTruthyStr cfg.ELEVENLABS_API_KEY)
    (habsent : cfg.ELEVENLABS_API_KEY = none ∨ cfg.AGENT_ID = none) :
    create_conversation cfg mgr w u t l c =
      (.httpError 500 "ElevenLabs not properly configured", mgr) := by
  unfold create_conversation
  rcases habsent with h | h <;> simp [hclient, h, pyTruthyStr]

/-- Witness for `create_conversation_config_error_no_state_change` with the
key unset and a previously registered session that must stay untouched. -/
theorem create_conversation_config_error_no_state_change_witness :
    create_conversation sampleCfgNoKey sampleMgrNoClient 7 none sampleDT2 5 9 =
      (.httpError 500 "ElevenLabs not properly configured", sampleMgrNoClient) :=
  create_conversation_config_error_no_state_change sampleCfgNoKey
    sampleMgrNoClient 7 none sampleDT2 5 9 (by decide) (Or.inl rfl)

/-- C9: a `start` control message naming an identifier that is not in the
registry draws an `error` reply, the loop keeps running (connection stays
open), the registry is returned unchanged, and the engine is never
invoked. -/
theorem start_unknown_session_replies_error_keeps_connection
    (mgr : ConversationManager) (sid : String) (uid txt : Option String)
    (esr eer cbr : Bool) (h : dictLookup mgr.conversations sid = none) :
    websocket_loop_step mgr sid (.text (.ok ⟨some "start", uid, txt⟩)) esr eer cbr =
      { mgr := mgr,
        sent := [.error ("Failed to start conversation: " ++
          strHTTPException 404 "Session not found")],
        callback_calls := [], control := .continueLoop,
        engine_start_calls := 0, engine_end_calls := 0 } := by
  simp [websocket_loop_step, handle_websocket_message, start_conversation, h]

/-- Witness for `start_unknown_session_replies_error_keeps_connection` on an
empty registry. -/
theorem start_unknown_session_replies_error_keeps_connection_witness :
    websocket_loop_step (ConversationManager.init sampleCfg) sampleSid
      (.text (.ok ⟨some "start", none, none⟩)) false false false =
      { mgr := ConversationManager.init sampleCfg,
        sent := [.error ("Failed to start conversation: " ++
          strHTTPException 404 "Session not found")],
        callback_calls := [], control := .continueLoop,
        engine_start_calls := 0, engine_end_calls := 0 } :=
  start_unknown_session_replies_error_keeps_connection
    (ConversationManager.init sampleCfg) sampleSid none none false false false
    (by decide)

/-- C10: a binary audio frame arriving for an identifier that is not in the
registry is silently discarded — registry unchanged, no queue touched, no
callback invoked, nothing sent — and the loop continues. -/
theorem audio_frame_unknown_session_discarded
    (mgr : ConversationManager) (sid : String) (frame : Frame)
    (esr eer cbr : Bool) (h : dictLookup mgr.conversations sid = none) :
    websocket_loop_step mgr sid (.bytes frame) esr eer cbr =
      { mgr := mgr, sent := [], callback_calls := [], control := .continueLoop,
        engine_start_calls := 0, engine_end_calls := 0 } := by
  simp [websocket_loop_step, h]

/-- Witness for `audio_frame_unknown_session_discarded` on an empty
registry. -/
theorem audio_frame_unknown_session_discarded_witness :
    websocket_loop_step (ConversationManager.init sampleCfg) sampleSid
      (.bytes [0, 1, 2]) false false false =
      { mgr := ConversationManager.init sampleCfg, sent := [],
        callback_calls := [], control := .continueLoop,
        engine_start_calls := 0, engine_end_calls := 0 } :=
  audio_frame_unknown_session_discarded (ConversationManager.init sampleCfg)
    sampleSid [0, 1, 2] false false false (by decide)

end Relay
